import Mathlib

/-!
Shallow embedding of `mprocess.py`: the two batch executors
(`MultiprocessingPool`, the isolated call pool, and `SubprocessPool`, the
command queue and scheduler), their submission methods, and their `run`
entry points.  External-process behaviour is supplied by an oracle
(`SPEnv`) giving each launched attempt a completion time, exit code and
captured output; the cooperative polling loop is driven by explicit fuel.
Both `run` embeddings also produce an event trace (launch, poll, dispatch,
collect, log line, fatal, close) so that ordering claims can be stated.
-/

/-- Dynamic values of the host language, as far as the executor code
inspects them.  A callable is opaque to the executors; it is represented by
the denotation of invoking it on the arguments it is submitted with: the
text it logs to the redirected stream, and the exception it raises, if
any. -/
inductive PyObj where
  | pystr (s : String)
  | pyint (n : Int)
  | pybool (b : Bool)
  | pylist (elems : List PyObj)
  | pytuple (elems : List PyObj)
  | pycallable (logged : String) (exc : Option String)
  | pynone

/-- The runtime types the validation code tests with `isinstance`. -/
inductive PyType where
  | tstr | tint | tbool | tlist | ttuple
deriving DecidableEq

/-- `isinstance(value, type)`. -/
def PyObj.isinstance : PyObj → PyType → Bool
  | .pystr _, .tstr => true
  | .pyint _, .tint => true
  | .pybool _, .tbool => true
  | .pylist _, .tlist => true
  | .pytuple _, .ttuple => true
  | _, _ => false

/-- `callable(value)`. -/
def PyObj.isCallable : PyObj → Bool
  | .pycallable _ _ => true
  | _ => false

/-- The elements a list or tuple object iterates over. -/
def PyObj.listElems : PyObj → List PyObj
  | .pylist es => es
  | .pytuple es => es
  | _ => []

/-- Errors the executors can raise: validation failures (the `assert` and
`check_types` guards, the `ValidationError` of the design) and runtime
failures raised during `run`. -/
inductive PyError where
  | validation (msg : String)
  | runtime (msg : String)
deriving DecidableEq

/-- Modelled from the spec: `utils.check_types` (module `schammer.utils`,
not under src) — per the error-handling design, a malformed submission
(wrong type) raises a validation error synchronously; each
(name, value, expected type) triple is checked and the first mismatch
raises. -/
def check_types : List (String × PyObj × PyType) → Except PyError Unit
  | [] => .ok ()
  | (name, v, t) :: rest =>
    if v.isinstance t then check_types rest
    else .error (.validation (name ++ " has the wrong type"))

/-- The `str.strip()` builtin: remove whitespace from both ends of the
string. -/
def pystrip (s : String) : String :=
  ⟨((s.data.dropWhile Char.isWhitespace).reverse.dropWhile Char.isWhitespace).reverse⟩

/-! ## SubprocessPool: submission -/

/-- `SubprocessPool`: owns the list of pending commands.  Each stored
command is the submitted list object (a `pylist` of `pystr`). -/
structure SubprocessPool where
  cmd_list : List PyObj

/-- `SubprocessPool.add_command`: validate that `cmd` is a list of strings
and non-empty, then append it.  A failed validation leaves the pool
unchanged (the append is the last statement). -/
def SubprocessPool.add_command (p : SubprocessPool) (cmd : PyObj) :
    Except PyError SubprocessPool := do
  check_types [("cmd", cmd, .tlist)]
  check_types (cmd.listElems.map fun cs => ("cmd str", cs, .tstr))
  if cmd.listElems.length > 0 then
    .ok ⟨p.cmd_list ++ [cmd]⟩
  else
    .error (.validation "cmd must not be empty")

/-- The loop body of `add_list_of_commands`: commands are added one by one,
so a failure in the middle leaves the earlier appends in place.  The result
is the pool state at the moment of the raise, paired with the error. -/
def SubprocessPool.add_list_go (p : SubprocessPool) :
    List PyObj → SubprocessPool × Option PyError
  | [] => (p, none)
  | cmd :: rest =>
    match p.add_command cmd with
    | .ok p2 => p2.add_list_go rest
    | .error e => (p, some e)

/-- `SubprocessPool.add_list_of_commands`. -/
def SubprocessPool.add_list_of_commands (p : SubprocessPool) (cmd_list : PyObj) :
    SubprocessPool × Option PyError :=
  match check_types [("cmd_list", cmd_list, .tlist)] with
  | .error e => (p, some e)
  | .ok _ => p.add_list_go cmd_list.listElems

/-! ## SubprocessPool: scheduler -/

/-- Behaviour of one spawned process attempt: how many 1-second polls time
out before it completes, its exit code, and its captured output. -/
structure ProcBehavior where
  duration : Nat
  exitcode : Int
  out : String

/-- Oracle for process behaviour: tracker id and attempt number (the
tracker's retry counter at launch) determine the spawned process. -/
abbrev SPEnv := Nat → Nat → ProcBehavior

/-- The inner `CMDTracker` record of `run_processes`: submitted command,
retry counter, process handle (here: the number of polls the running
process has absorbed), and captured output bytes. -/
structure CMDTracker where
  id : Nat
  cmd : PyObj
  retries : Nat
  popen : Option Nat
  stdout_bytes : Option String

/-- Observable events of one scheduler run. -/
inductive SPEvent where
  | launch (id attempt : Nat)
  | poll (id : Nat)
  | logLine (s : String)
  | fatal (id : Nat)
deriving DecidableEq

/-- The inner launch loop: while fewer than `processes` items are running
and pending items remain, pop the last pending item and launch it.  Fuel is
the length of the pending list at entry, which bounds the iterations. -/
def launchLoop (processes : Nat) :
    Nat → List CMDTracker → List CMDTracker → List SPEvent →
    List CMDTracker × List CMDTracker × List SPEvent
  | 0, to_run, running, evs => (to_run, running, evs)
  | Nat.succ fuel, to_run, running, evs =>
    if running.length < processes then
      match to_run.getLast? with
      | none => (to_run, running, evs)
      | some cmd_tracker =>
        launchLoop processes fuel to_run.dropLast
          (running ++ [{ cmd_tracker with popen := some 0 }])
          (evs ++ [SPEvent.launch cmd_tracker.id cmd_tracker.retries])
    else (to_run, running, evs)

/-- One pass of `popen.communicate(timeout=1)` over every running tracker,
in list order: a process whose elapsed poll count has reached its duration
completes (its output is captured when `output` is set, discarded
otherwise); the rest time out and stay running.  Returns
(still running, completed, poll events). -/
def pollPhase (env : SPEnv) (output : Bool) :
    List CMDTracker → List CMDTracker × List CMDTracker × List SPEvent
  | [] => ([], [], [])
  | t :: rest =>
    let b := env t.id t.retries
    let elapsed := match t.popen with | some e => e | none => 0
    let (sr, comp, evs) := pollPhase env output rest
    if b.duration ≤ elapsed then
      (sr,
       { t with stdout_bytes := if output then some b.out else none } :: comp,
       SPEvent.poll t.id :: evs)
    else
      ({ t with popen := some (elapsed + 1) } :: sr, comp, SPEvent.poll t.id :: evs)

/-- `get_std_out_from_tracker`: decode and strip the captured bytes.  When
output was discarded the bytes are absent and the attribute access on the
missing value raises (uncaught by the surrounding handler, which only
catches decode errors). -/
def get_std_out_from_tracker (t : CMDTracker) : Except PyError String :=
  match t.stdout_bytes with
  | some s => .ok ("\n" ++ pystrip s)
  | none => .error (.runtime "AttributeError: NoneType object has no attribute decode")

/-- Processing of the completed trackers, in completion-list order: a
non-zero exit with the retry counter at the budget logs the captured output
and raises; a non-zero exit below the budget increments the counter, clears
the handle and re-queues the tracker; a zero exit logs the output when
`output` is set.  Returns the updated pending list, the event list, and the
raised error, if any (the raise abandons the rest of the completed list). -/
def processCompleted (env : SPEnv) (retries_budget : Nat) (output : Bool) :
    List CMDTracker → List CMDTracker → List SPEvent →
    List CMDTracker × List SPEvent × Option PyError
  | [], to_run, evs => (to_run, evs, none)
  | t :: rest, to_run, evs =>
    let b := env t.id t.retries
    if b.exitcode ≠ 0 then
      if t.retries = retries_budget then
        match get_std_out_from_tracker t with
        | .error e => (to_run, evs ++ [SPEvent.fatal t.id], some e)
        | .ok s =>
          (to_run,
           evs ++ [SPEvent.logLine (" - subprocess exited with errors - " ++ s),
                   SPEvent.fatal t.id],
           some (.runtime ("subprocess exited with a non-zero return code and retries limit reached, "
                           ++ toString b.exitcode)))
      else
        processCompleted env retries_budget output rest
          (to_run ++ [{ t with retries := t.retries + 1, popen := none }]) evs
    else
      if output then
        match get_std_out_from_tracker t with
        | .error e => (to_run, evs, some e)
        | .ok s =>
          processCompleted env retries_budget output rest to_run
            (evs ++ [SPEvent.logLine (" - subprocess completed - " ++ s)])
      else
        processCompleted env retries_budget output rest to_run evs

/-- The outer polling loop of `SubprocessPool.run_processes`: while pending
or running items remain, fill free slots, poll every running process, then
process the completions.  `none` means the fuel ran out before the loop
terminated. -/
def runLoop (env : SPEnv) (processes retries_budget : Nat) (output : Bool) :
    Nat → List CMDTracker → List CMDTracker → List SPEvent →
    Option (List SPEvent × Option PyError)
  | 0, _, _, _ => none
  | Nat.succ fuel, to_run, running, evs =>
    if to_run.isEmpty && running.isEmpty then some (evs, none)
    else
      let (to_run2, running2, evs2) := launchLoop processes to_run.length to_run running evs
      let (still_running, completed, poll_evs) := pollPhase env output running2
      let (to_run3, evs3, err) :=
        processCompleted env retries_budget output completed to_run2 (evs2 ++ poll_evs)
      match err with
      | some e => some (evs3, some e)
      | none => runLoop env processes retries_budget output fuel to_run3 still_running evs3

/-- Result of one `SubprocessPool.run_processes` call: the pool state when
the call returns or raises, the event trace, and the raised error, if
any. -/
structure SPRunResult where
  pool : SubprocessPool
  trace : List SPEvent
  error : Option PyError

/-- `SubprocessPool.run_processes`: validate the arguments, turn every
pending command into a tracker, clear the pending list, and run the
scheduling loop.  `shell` only changes the argument string handed to the
spawned process and is irrelevant to the oracle-driven behaviour.  `none`
means the loop fuel ran out. -/
def SubprocessPool.run_processes (p : SubprocessPool) (processes : Int)
    (shell output : Bool) (retries : Int) (env : SPEnv) (fuel : Nat) :
    Option SPRunResult :=
  if ¬ (0 < processes ∧ processes < 37) then
    some { pool := p, trace := [],
           error := some (.validation "processes must be between 1 and 36 inclusive") }
  else if ¬ (0 ≤ retries ∧ retries ≤ 30) then
    some { pool := p, trace := [],
           error := some (.validation "retries must be an int from 0 to 30") }
  else
    match runLoop env processes.toNat retries.toNat output fuel
        (p.cmd_list.enum.map fun ic => CMDTracker.mk ic.1 ic.2 0 none none) [] [] with
    | none => none
    | some (evs, err) =>
      some { pool := ⟨[]⟩, trace := evs, error := err }

/-! ## MultiprocessingPool -/

/-- `MultiprocessingPool.FunctionCall`: a callable plus its argument
tuple. -/
structure FunctionCall where
  func : PyObj
  arg_tuple : PyObj

/-- The constructor of `FunctionCall`: assert the first argument is
callable and the second is a tuple, in that order. -/
def FunctionCall.init (func : PyObj) (arg_tuple : PyObj) :
    Except PyError FunctionCall :=
  if ¬ func.isCallable then
    .error (.validation "func must be a callable function")
  else if ¬ arg_tuple.isinstance .ttuple then
    .error (.validation "arg tuple must be a tuple")
  else
    .ok ⟨func, arg_tuple⟩

/-- `MultiprocessingPool`: owns the list of pending function calls. -/
structure MultiprocessingPool where
  function_call_list : List FunctionCall

/-- `MultiprocessingPool.add_function_call`: append the call.  The
`isinstance` assert is enforced by the Lean type. -/
def MultiprocessingPool.add_function_call (p : MultiprocessingPool)
    (function_call : FunctionCall) : MultiprocessingPool :=
  ⟨p.function_call_list ++ [function_call]⟩

/-- Modelled from the spec: `utils.log_last_error` (module
`schammer.utils`, not under src) — per the call-pool design the worker, on
a raised error, logs the error into the redirected stream; the logged text
is a line naming the error. -/
def log_last_error_text (e : String) : String := "ERROR: " ++ e

/-- Denotation of `function_call.func(*function_call.arg_tuple)` under the
redirected string-stream logging: the text the call logs, and the exception
it raises, if any. -/
def FunctionCall.rawOutcome (fc : FunctionCall) : String × Option String :=
  match fc.func with
  | .pycallable logged exc => (logged, exc)
  | _ => ("", some "TypeError: object is not callable")

/-- `_call_func_and_return_log_and_error_caught`: the worker body.  The
call runs under redirected logging; an exception is caught, logged via
`log_last_error`, and recorded as a flag; the worker returns the stripped
stream contents and the flag in every case. -/
def call_func_and_return_log_and_error_caught (function_call : FunctionCall) :
    String × Bool :=
  let (logged, exc) := function_call.rawOutcome
  match exc with
  | none => (pystrip logged, false)
  | some e => (pystrip (logged ++ log_last_error_text e), true)

/-- Observable events of one call-pool run. -/
inductive MPEvent where
  | dispatch (i : Nat)
  | collect (i : Nat)
  | logLine (s : String)
  | raised
  | closed
deriving DecidableEq

/-- The log line emitted for a completed call with a non-empty log. -/
def mp_completed_line (log_str : String) : String :=
  " - multiprocessing function call completed - \n" ++ log_str

/-- The log-and-check loop of `MultiprocessingPool.run_processes`, over the
collected (log text, error flag) pairs in collection order: a non-empty log
is emitted, and the first set error flag raises, abandoning the rest of the
loop.  Returns the emitted events and whether the loop raised. -/
def log_check_loop : List (String × Bool) → List MPEvent × Bool
  | [] => ([], false)
  | (log_str, error_caught) :: rest =>
    let evs := if log_str ≠ "" then [MPEvent.logLine (mp_completed_line log_str)] else []
    if error_caught then
      (evs ++ [MPEvent.raised], true)
    else
      let (evs2, r) := log_check_loop rest
      (evs ++ evs2, r)

/-- Result of one `MultiprocessingPool.run_processes` call. -/
structure MPRunResult where
  pool : MultiprocessingPool
  trace : List MPEvent
  error : Option PyError

/-- `MultiprocessingPool.run_processes`: validate `processes`, dispatch
every pending call to the worker pool, collect every result in dispatch
order, then run the log-and-check loop; the pool is closed only when the
loop finishes without raising.  The pending list is left as it was. -/
def MultiprocessingPool.run_processes (p : MultiprocessingPool)
    (processes : Int) : MPRunResult :=
  if ¬ (0 < processes ∧ processes < 37) then
    { pool := p, trace := [],
      error := some (.validation "processes must be between 1 and 36 inclusive") }
  else
    let n := p.function_call_list.length
    let results := p.function_call_list.map call_func_and_return_log_and_error_caught
    let (loop_evs, raised_flag) := log_check_loop results
    { pool := p
      trace := ((List.range n).map MPEvent.dispatch)
               ++ ((List.range n).map MPEvent.collect)
               ++ loop_evs
               ++ (if raised_flag then [] else [MPEvent.closed])
      error := if raised_flag then
                 some (.runtime "multiprocessing function call caught an error")
               else none }

/-! ## Auxiliary observations and concrete fixtures -/

/-- Whether a scheduler event is a process launch. -/
def SPEvent.is_launch : SPEvent → Bool
  | .launch _ _ => true
  | _ => false

/-- Number of process launches in a scheduler trace. -/
def countLaunches (tr : List SPEvent) : Nat := (tr.filter SPEvent.is_launch).length

/-- Whether a scheduler event is the fatal raise. -/
def SPEvent.is_fatal : SPEvent → Bool
  | .fatal _ => true
  | _ => false

/-- The log lines of a call-pool trace, in emission order. -/
def logLinesOf (tr : List MPEvent) : List String :=
  tr.filterMap fun e => match e with | .logLine s => some s | _ => none

/-- The log lines the call pool is observed to emit, described over the
collected results: in collection order, every non-empty log up to and
including the first result carrying the error flag, and nothing after
it. -/
def logged_up_to_first_error : List (String × Bool) → List String
  | [] => []
  | (log_str, error_caught) :: rest =>
    (if log_str ≠ "" then [mp_completed_line log_str] else [])
      ++ (if error_caught then [] else logged_up_to_first_error rest)

/-- The validation predicate of `add_command`, as one boolean: the
submission is a list, every element is a string, and it is non-empty. -/
def valid_cmd (cmd : PyObj) : Bool :=
  cmd.isinstance .tlist
    && cmd.listElems.all (fun cs => cs.isinstance .tstr)
    && cmd.listElems.length > 0

/-- Number of dispatch events in a call-pool trace. -/
def countDispatches (tr : List MPEvent) : Nat :=
  (tr.filter fun e => match e with | .dispatch _ => true | _ => false).length

/-- A call that logs nothing and returns normally. -/
def fcOk : FunctionCall := ⟨PyObj.pycallable "" none, PyObj.pytuple []⟩

/-- A call that logs the text hello and returns normally. -/
def fcHello : FunctionCall := ⟨PyObj.pycallable "hello" none, PyObj.pytuple []⟩

/-- A call that raises the exception boom after logging nothing. -/
def fcErr : FunctionCall := ⟨PyObj.pycallable "" (some "boom"), PyObj.pytuple []⟩

/-- A one-element command line. -/
def cmdA : PyObj := PyObj.pylist [PyObj.pystr "cmd"]

/-- Oracle: every attempt completes at the first poll; the first
`failures` attempts exit 1, later attempts exit 0. -/
def env_succeed_after (failures : Nat) : SPEnv := fun _ attempt =>
  { duration := 0, exitcode := if attempt < failures then 1 else 0, out := "" }

/-- Oracle: every attempt completes at the first poll and exits 1. -/
def env_always_fail : SPEnv := fun _ _ =>
  { duration := 0, exitcode := 1, out := "" }

/-- Oracle for the fail-fast scenario: command 1 completes at once and
exits 1; command 0 keeps running for five polls and would exit 0. -/
def env5 : SPEnv := fun id _ =>
  if id = 1 then { duration := 0, exitcode := 1, out := "x" }
  else { duration := 5, exitcode := 0, out := "" }

/-- The two-command pool of the fail-fast scenario. -/
def sp5 : SubprocessPool := ⟨[PyObj.pylist [PyObj.pystr "a"], PyObj.pylist [PyObj.pystr "b"]]⟩

/-! ## Helper lemmas -/

lemma log_check_loop_logLines (rs : List (String × Bool)) :
    logLinesOf (log_check_loop rs).1 = logged_up_to_first_error rs := by
  induction rs with
  | nil => simp [log_check_loop, logged_up_to_first_error, logLinesOf]
  | cons r rest ih =>
    obtain ⟨log_str, error_caught⟩ := r
    by_cases hl : log_str = ""
    · cases error_caught <;>
        simp [log_check_loop, logged_up_to_first_error, logLinesOf, hl] at ih ⊢ <;>
        simpa using ih
    · cases error_caught <;>
        simp [log_check_loop, logged_up_to_first_error, logLinesOf, hl] at ih ⊢ <;>
        simpa using ih

lemma log_check_loop_flag (rs : List (String × Bool)) :
    (log_check_loop rs).2 = rs.any (fun r => r.2) := by
  induction rs with
  | nil => simp [log_check_loop]
  | cons r rest ih =>
    obtain ⟨log_str, error_caught⟩ := r
    cases error_caught <;> simp [log_check_loop, ih]

lemma log_check_loop_raised_decomp (rs : List (String × Bool))
    (h : (log_check_loop rs).2 = true) :
    ∃ evs0, (log_check_loop rs).1 = evs0 ++ [MPEvent.raised] := by
  induction rs with
  | nil => simp [log_check_loop] at h
  | cons r rest ih =>
    obtain ⟨log_str, error_caught⟩ := r
    cases error_caught with
    | true =>
      refine ⟨if log_str ≠ "" then [MPEvent.logLine (mp_completed_line log_str)] else [], ?_⟩
      simp [log_check_loop]
    | false =>
      simp only [log_check_loop] at h ⊢
      obtain ⟨evs0, hevs⟩ := ih h
      exact ⟨(if log_str ≠ "" then [MPEvent.logLine (mp_completed_line log_str)] else []) ++ evs0,
        by simp [hevs]⟩

lemma log_check_loop_no_raised (rs : List (String × Bool))
    (h : (log_check_loop rs).2 = false) :
    MPEvent.raised ∉ (log_check_loop rs).1 := by
  induction rs with
  | nil => simp [log_check_loop]
  | cons r rest ih =>
    obtain ⟨log_str, error_caught⟩ := r
    cases error_caught with
    | true => simp [log_check_loop] at h
    | false =>
      simp only [log_check_loop] at h ⊢
      intro hmem
      rcases List.mem_append.mp hmem with hmem | hmem
      · by_cases hl : log_str = "" <;> simp [hl] at hmem
      · exact ih h hmem

lemma log_check_loop_no_closed (rs : List (String × Bool)) :
    MPEvent.closed ∉ (log_check_loop rs).1 := by
  induction rs with
  | nil => simp [log_check_loop]
  | cons r rest ih =>
    obtain ⟨log_str, error_caught⟩ := r
    cases error_caught with
    | true =>
      by_cases hl : log_str = "" <;> simp [log_check_loop, hl]
    | false =>
      simp only [log_check_loop]
      intro hmem
      rcases List.mem_append.mp hmem with hmem | hmem
      · by_cases hl : log_str = "" <;> simp [hl] at hmem
      · exact ih hmem

/-! ## Claims -/

/-- C1 counterexample: the claim that both executors drain their pending
queue once `run` is invoked is false for the call pool.  A
`MultiprocessingPool` holding one call completes `run` without error, yet
its pending list still holds the item; after adding one fresh call, a
second `run` dispatches two calls, not one, so it does not behave like a
first run with the fresh batch. -/
theorem C1_counterexample :
    ((MultiprocessingPool.mk [fcOk]).run_processes 1).error = none
    ∧ ((MultiprocessingPool.mk [fcOk]).run_processes 1).pool.function_call_list.length = 1
    ∧ countDispatches
        ((((MultiprocessingPool.mk [fcOk]).run_processes 1).pool.add_function_call
          fcHello).run_processes 1).trace = 2 := by
  refine ⟨?_, ?_, ?_⟩ <;> rfl

/-- C1 (amended): the command scheduler drains its pending queue once `run`
passes validation, regardless of outcome; the call pool does not — its
pending list is left exactly as it was, so a later `run` on the same
instance re-executes the earlier batch. -/
theorem C1_theorem :
    (∀ (p : SubprocessPool) (processes : Int) (shell output : Bool) (retries : Int)
        (env : SPEnv) (fuel : Nat) (res : SPRunResult),
        0 < processes → processes < 37 → 0 ≤ retries → retries ≤ 30 →
        p.run_processes processes shell output retries env fuel = some res →
        res.pool.cmd_list = [])
    ∧ (∀ (p : MultiprocessingPool) (processes : Int),
        (p.run_processes processes).pool = p) := by
  constructor
  · intro p processes shell output retries env fuel res h1 h2 h3 h4 hrun
    rw [SubprocessPool.run_processes, if_neg (not_not_intro ⟨h1, h2⟩),
        if_neg (not_not_intro ⟨h3, h4⟩)] at hrun
    split at hrun
    · exact absurd hrun (by simp)
    · cases hrun
      rfl
  · intro p processes
    rw [MultiprocessingPool.run_processes]
    split
    · rfl
    · rfl

/-- C1 witness: on concrete inputs, the command scheduler ends with an
empty queue while the call pool keeps its pending call. -/
theorem C1_witness :
    ((MultiprocessingPool.mk [fcHello]).run_processes 2).pool = ⟨[fcHello]⟩
    ∧ ∃ res, SubprocessPool.run_processes ⟨[cmdA]⟩ 1 false true 0 env_always_fail 2 = some res
        ∧ res.pool.cmd_list = [] := by
  refine ⟨C1_theorem.2 ⟨[fcHello]⟩ 2, ⟨_, rfl, ?_⟩⟩
  exact C1_theorem.1 ⟨[cmdA]⟩ 1 false true 0 env_always_fail 2 _
    (by decide) (by decide) (by decide) (by decide) rfl

/-- C3 counterexample: the claim that the call-pool worker pool is released
on both the success and failure paths is false: in a batch whose only call
raises, `run` raises the aggregate error and the close event never
occurs. -/
theorem C3_counterexample :
    ((MultiprocessingPool.mk [fcErr]).run_processes 1).error.isSome = true
    ∧ MPEvent.closed ∉ ((MultiprocessingPool.mk [fcErr]).run_processes 1).trace := by
  refine ⟨rfl, ?_⟩
  decide

/-- C3 (amended): the call-pool worker pool is released once all results
are collected on the success path only; on the failure path the aggregate
error is raised before the close statement is reached, so the pool is not
closed. -/
theorem C3_theorem (p : MultiprocessingPool) (processes : Int)
    (h1 : 0 < processes) (h2 : processes < 37) :
    ((p.run_processes processes).error = none →
      MPEvent.closed ∈ (p.run_processes processes).trace)
    ∧ ((p.run_processes processes).error.isSome →
      MPEvent.closed ∉ (p.run_processes processes).trace) := by
  rw [MultiprocessingPool.run_processes, if_neg (not_not_intro ⟨h1, h2⟩)]
  cases hflag : (log_check_loop
      (p.function_call_list.map call_func_and_return_log_and_error_caught)).2 with
  | false =>
    constructor
    · intro _
      simp [hflag]
    · intro hsome
      simp [hflag] at hsome
  | true =>
    constructor
    · intro hnone
      simp [hflag] at hnone
    · intro _
      simp only [hflag, if_true]
      intro hmem
      simp only [List.append_nil, List.mem_append] at hmem
      rcases hmem with (hmem | hmem) | hmem
      · simp [List.mem_map] at hmem
      · simp [List.mem_map] at hmem
      · exact log_check_loop_no_closed _ hmem

/-- C3 witness: the amended statement at a successful and a failing
concrete batch. -/
theorem C3_witness :
    (((MultiprocessingPool.mk [fcHello]).run_processes 1).error = none →
      MPEvent.closed ∈ ((MultiprocessingPool.mk [fcHello]).run_processes 1).trace)
    ∧ (((MultiprocessingPool.mk [fcErr]).run_processes 1).error.isSome →
      MPEvent.closed ∉ ((MultiprocessingPool.mk [fcErr]).run_processes 1).trace) :=
  ⟨(C3_theorem ⟨[fcHello]⟩ 1 (by decide) (by decide)).1,
   (C3_theorem ⟨[fcErr]⟩ 1 (by decide) (by decide)).2⟩

/-- C8: for a concurrency value outside 1..36 either executor raises a
validation error before doing any work — no event occurs and the pending
queue is unchanged — and likewise for a retries value outside 0..30 in the
command scheduler. -/
theorem C8_theorem (mp : MultiprocessingPool) (sp : SubprocessPool)
    (processes retries : Int) (shell output : Bool) (env : SPEnv) (fuel : Nat) :
    (¬ (0 < processes ∧ processes < 37) →
      mp.run_processes processes
        = ⟨mp, [], some (.validation "processes must be between 1 and 36 inclusive")⟩)
    ∧ (¬ (0 < processes ∧ processes < 37) →
      sp.run_processes processes shell output retries env fuel
        = some ⟨sp, [], some (.validation "processes must be between 1 and 36 inclusive")⟩)
    ∧ (0 < processes ∧ processes < 37 → ¬ (0 ≤ retries ∧ retries ≤ 30) →
      sp.run_processes processes shell output retries env fuel
        = some ⟨sp, [], some (.validation "retries must be an int from 0 to 30")⟩) := by
  refine ⟨?_, ?_, ?_⟩
  · intro h
    rw [MultiprocessingPool.run_processes, if_pos h]
  · intro h
    rw [SubprocessPool.run_processes, if_pos h]
  · intro hA hB
    rw [SubprocessPool.run_processes, if_neg (not_not_intro hA), if_pos hB]

/-- C8 witness: concurrency 0 and 37 are rejected by both executors, and
retries 31 by the scheduler, before any work. -/
theorem C8_witness :
    (MultiprocessingPool.mk [fcHello]).run_processes 0
      = ⟨⟨[fcHello]⟩, [], some (.validation "processes must be between 1 and 36 inclusive")⟩
    ∧ SubprocessPool.run_processes ⟨[cmdA]⟩ 37 false true 0 env_always_fail 5
      = some ⟨⟨[cmdA]⟩, [], some (.validation "processes must be between 1 and 36 inclusive")⟩
    ∧ SubprocessPool.run_processes ⟨[cmdA]⟩ 1 false true 31 env_always_fail 5
      = some ⟨⟨[cmdA]⟩, [], some (.validation "retries must be an int from 0 to 30")⟩ :=
  ⟨(C8_theorem ⟨[fcHello]⟩ ⟨[cmdA]⟩ 0 0 false true env_always_fail 5).1 (by decide),
   (C8_theorem ⟨[fcHello]⟩ ⟨[cmdA]⟩ 37 0 false true env_always_fail 5).2.1 (by decide),
   (C8_theorem ⟨[fcHello]⟩ ⟨[cmdA]⟩ 1 31 false true env_always_fail 5).2.2 (by decide) (by decide)⟩

/-- C2 counterexample: the claim that every collected result with a
non-empty log has it emitted before the aggregate failure is raised is
false.  With a raising call collected before a successful call that logged
hello, `run` raises at the first result and the hello line is never
emitted. -/
theorem C2_counterexample :
    (call_func_and_return_log_and_error_caught fcHello).1 = "hello"
    ∧ ((MultiprocessingPool.mk [fcErr, fcHello]).run_processes 1).error.isSome = true
    ∧ MPEvent.logLine (mp_completed_line "hello")
        ∉ ((MultiprocessingPool.mk [fcErr, fcHello]).run_processes 1).trace := by
  refine ⟨rfl, rfl, ?_⟩
  decide

/-- C2 (amended): the call pool emits, in collection order, the non-empty
logs of the results up to and including the first result carrying the error
flag (whose own log, if non-empty, is emitted before the raise); the logs
of results after the first erroring one are not emitted. -/
theorem C2_theorem (p : MultiprocessingPool) (processes : Int)
    (h1 : 0 < processes) (h2 : processes < 37) :
    logLinesOf (p.run_processes processes).trace
      = logged_up_to_first_error
          (p.function_call_list.map call_func_and_return_log_and_error_caught) := by
  rw [MultiprocessingPool.run_processes, if_neg (not_not_intro ⟨h1, h2⟩)]
  have happ : ∀ u v : List MPEvent, logLinesOf (u ++ v) = logLinesOf u ++ logLinesOf v := by
    intro u v
    simp [logLinesOf]
  have hD : logLinesOf ((List.range p.function_call_list.length).map MPEvent.dispatch) = [] := by
    simp [logLinesOf, List.filterMap_map, Function.comp]
  have hC : logLinesOf ((List.range p.function_call_list.length).map MPEvent.collect) = [] := by
    simp [logLinesOf, List.filterMap_map, Function.comp]
  have hClose : ∀ b : Bool, logLinesOf (if b = true then [] else [MPEvent.closed]) = [] := by
    intro b
    cases b <;> simp [logLinesOf]
  show logLinesOf (_ ++ _ ++ _ ++ _) = _
  rw [happ, happ, happ, hD, hC, hClose, log_check_loop_logLines]
  simp

/-- C2 witness: the amended statement at the concrete two-call batch whose
first collected result errors. -/
theorem C2_witness :
    logLinesOf ((MultiprocessingPool.mk [fcErr, fcHello]).run_processes 1).trace
      = logged_up_to_first_error
          ([fcErr, fcHello].map call_func_and_return_log_and_error_caught) :=
  C2_theorem ⟨[fcErr, fcHello]⟩ 1 (by decide) (by decide)

/-- C6: the call pool collects the result of every dispatched call before
examining error flags: whenever `run` raises, every collect event precedes
the raise in the trace, and the raise happens exactly when some collected
result carries the error flag — an error never short-circuits the
wait-for-all barrier. -/
theorem C6_theorem (p : MultiprocessingPool) (processes : Int)
    (h1 : 0 < processes) (h2 : processes < 37) :
    (MPEvent.raised ∈ (p.run_processes processes).trace →
      ∃ pre suff, (p.run_processes processes).trace = pre ++ MPEvent.raised :: suff
        ∧ ∀ i < p.function_call_list.length, MPEvent.collect i ∈ pre)
    ∧ ((p.run_processes processes).error.isSome = true ↔
      (p.function_call_list.map call_func_and_return_log_and_error_caught).any
        (fun r => r.2) = true) := by
  rw [MultiprocessingPool.run_processes, if_neg (not_not_intro ⟨h1, h2⟩)]
  cases hflag : (log_check_loop
      (p.function_call_list.map call_func_and_return_log_and_error_caught)).2 with
  | false =>
    constructor
    · intro hmem
      simp only [hflag] at hmem
      exfalso
      simp only [List.mem_append, List.mem_map, if_false] at hmem
      rcases hmem with ((⟨i, _, hi⟩ | ⟨i, _, hi⟩) | hmem) | hmem
      · cases hi
      · cases hi
      · exact log_check_loop_no_raised _ hflag hmem
      · simp at hmem
    · rw [← log_check_loop_flag, hflag]
      simp [hflag]
  | true =>
    constructor
    · intro _
      obtain ⟨evs0, hevs⟩ := log_check_loop_raised_decomp _ hflag
      refine ⟨(List.range p.function_call_list.length).map MPEvent.dispatch
          ++ (List.range p.function_call_list.length).map MPEvent.collect ++ evs0, [], ?_, ?_⟩
      · simp only [hflag, hevs, if_true]
        simp
      · intro i hi
        simp [List.mem_map, hi]
    · rw [← log_check_loop_flag, hflag]
      simp [hflag]

/-- C6 witness: a batch where the first dispatched call succeeds and the
second errors; the raise occurs and both collect events precede it. -/
theorem C6_witness :
    (MPEvent.raised ∈ ((MultiprocessingPool.mk [fcHello, fcErr]).run_processes 2).trace →
      ∃ pre suff, ((MultiprocessingPool.mk [fcHello, fcErr]).run_processes 2).trace
          = pre ++ MPEvent.raised :: suff
        ∧ ∀ i < (MultiprocessingPool.mk [fcHello, fcErr]).function_call_list.length,
            MPEvent.collect i ∈ pre)
    ∧ (((MultiprocessingPool.mk [fcHello, fcErr]).run_processes 2).error.isSome = true ↔
      ([fcHello, fcErr].map call_func_and_return_log_and_error_caught).any
        (fun r => r.2) = true) :=
  C6_theorem ⟨[fcHello, fcErr]⟩ 2 (by decide) (by decide)

/-- C7: the worker boundary catches any raised error: the error flag is set
exactly when the call raised, the raised error is logged into the per-call
buffer (the returned log is the stripped buffer including the logged
error), and the coordinator only ever raises one fixed aggregate error,
independent of the original error object. -/
theorem C7_theorem :
    (∀ fc : FunctionCall,
      (call_func_and_return_log_and_error_caught fc).2 = (fc.rawOutcome.2).isSome)
    ∧ (∀ fc e, fc.rawOutcome.2 = some e →
      (call_func_and_return_log_and_error_caught fc).1
        = pystrip (fc.rawOutcome.1 ++ log_last_error_text e))
    ∧ (∀ (p : MultiprocessingPool) (processes : Int), 0 < processes → processes < 37 →
      ∀ e, (p.run_processes processes).error = some e →
        e = .runtime "multiprocessing function call caught an error") := by
  refine ⟨?_, ?_, ?_⟩
  · intro fc
    rcases h : fc.rawOutcome with ⟨logged, exc⟩
    cases exc <;> simp [call_func_and_return_log_and_error_caught, h]
  · intro fc e he
    rcases h : fc.rawOutcome with ⟨logged, exc⟩
    rw [h] at he
    cases he
    simp [call_func_and_return_log_and_error_caught, h]
  · intro p processes h1 h2 e he
    rw [MultiprocessingPool.run_processes, if_neg (not_not_intro ⟨h1, h2⟩)] at he
    cases hflag : (log_check_loop
        (p.function_call_list.map call_func_and_return_log_and_error_caught)).2 with
    | false =>
      simp only [hflag] at he
      cases he
    | true =>
      simp only [hflag, if_true] at he
      cases he
      rfl

/-- C7 witness: the raising call has its flag set and its error logged in
the returned buffer, and a batch containing it raises the fixed aggregate
error. -/
theorem C7_witness :
    (call_func_and_return_log_and_error_caught fcErr).2 = (fcErr.rawOutcome.2).isSome
    ∧ (call_func_and_return_log_and_error_caught fcErr).1
        = pystrip (fcErr.rawOutcome.1 ++ log_last_error_text "boom")
    ∧ (match ((MultiprocessingPool.mk [fcErr]).run_processes 1).error with
       | some e => e = PyError.runtime "multiprocessing function call caught an error"
       | none => False) := by
  refine ⟨C7_theorem.1 fcErr, C7_theorem.2.1 fcErr "boom" rfl, ?_⟩
  cases he : ((MultiprocessingPool.mk [fcErr]).run_processes 1).error with
  | none => exact absurd he (by decide)
  | some e => exact C7_theorem.2.2 ⟨[fcErr]⟩ 1 (by decide) (by decide) e he

lemma pollPhase_stdout (env : SPEnv) (output : Bool) :
    ∀ (running still comp : List CMDTracker) (pevs : List SPEvent),
    pollPhase env output running = (still, comp, pevs) →
    ∀ t ∈ comp, output = true → t.stdout_bytes.isSome = true := by
  intro running
  induction running with
  | nil =>
    intro still comp pevs h
    simp only [pollPhase] at h
    injection h with h1 h'
    injection h' with h2 h3
    subst h2
    intro t ht
    simp at ht
  | cons t rest ih =>
    intro still comp pevs h
    simp only [pollPhase] at h
    rcases hrec : pollPhase env output rest with ⟨sr, cm, ev⟩
    rw [hrec] at h
    dsimp only at h
    by_cases hd : (env t.id t.retries).duration ≤ (match t.popen with | some e => e | none => 0)
    · rw [if_pos hd] at h
      injection h with h1 h'
      injection h' with h2 h3
      subst h2
      intro t' ht' ho
      rcases List.mem_cons.mp ht' with rfl | ht'
      · simp [ho]
      · exact ih sr cm ev hrec t' ht' ho
    · rw [if_neg hd] at h
      injection h with h1 h'
      injection h' with h2 h3
      subst h2
      intro t' ht' ho
      exact ih sr cm ev hrec t' ht' ho

lemma processCompleted_some (env : SPEnv) (R : Nat) (output : Bool) :
    ∀ (comp to_run : List CMDTracker) (evs : List SPEvent)
      (to_run2 : List CMDTracker) (evs2 : List SPEvent) (e : PyError),
    (∀ t ∈ comp, output = true → t.stdout_bytes.isSome = true) →
    processCompleted env R output comp to_run evs = (to_run2, evs2, some e) →
    (∃ m, e = PyError.runtime m) ∧ ∃ pre i, evs2 = pre ++ [SPEvent.fatal i] := by
  intro comp
  induction comp with
  | nil =>
    intro to_run evs to_run2 evs2 e _ h
    simp [processCompleted] at h
  | cons t rest ih =>
    intro to_run evs to_run2 evs2 e hstd h
    simp only [processCompleted] at h
    by_cases hexit : (env t.id t.retries).exitcode ≠ 0
    · rw [if_pos hexit] at h
      by_cases hret : t.retries = R
      · rw [if_pos hret] at h
        cases hso : t.stdout_bytes with
        | none =>
          simp only [get_std_out_from_tracker, hso] at h
          injection h with h1 h'
          injection h' with h2 h3
          injection h3 with h4
          subst h2
          subst h4
          exact ⟨⟨_, rfl⟩, evs, t.id, rfl⟩
        | some s =>
          simp only [get_std_out_from_tracker, hso] at h
          injection h with h1 h'
          injection h' with h2 h3
          injection h3 with h4
          subst h2
          subst h4
          refine ⟨⟨_, rfl⟩, evs ++ [SPEvent.logLine (" - subprocess exited with errors - "
            ++ ("\n" ++ pystrip s))], t.id, ?_⟩
          simp
      · rw [if_neg hret] at h
        exact ih _ _ _ _ _ (fun t' ht' => hstd t' (List.mem_cons_of_mem _ ht')) h
    · rw [if_neg hexit] at h
      by_cases ho : output = true
      · rw [if_pos ho] at h
        cases hso : t.stdout_bytes with
        | none =>
          have := hstd t (List.mem_cons_self _ _) ho
          rw [hso] at this
          simp at this
        | some s =>
          simp only [get_std_out_from_tracker, hso] at h
          exact ih _ _ _ _ _ (fun t' ht' => hstd t' (List.mem_cons_of_mem _ ht')) h
      · rw [if_neg ho] at h
        exact ih _ _ _ _ _ (fun t' ht' => hstd t' (List.mem_cons_of_mem _ ht')) h

lemma runLoop_some_error (env : SPEnv) (P R : Nat) (output : Bool) :
    ∀ (fuel : Nat) (to_run running : List CMDTracker) (evs : List SPEvent)
      (tr : List SPEvent) (e : PyError),
    runLoop env P R output fuel to_run running evs = some (tr, some e) →
    (∃ m, e = PyError.runtime m) ∧ ∃ pre i, tr = pre ++ [SPEvent.fatal i] := by
  intro fuel
  induction fuel with
  | zero =>
    intro to_run running evs tr e h
    simp [runLoop] at h
  | succ fuel ih =>
    intro to_run running evs tr e h
    simp only [runLoop] at h
    by_cases hempty : (to_run.isEmpty && running.isEmpty) = true
    · rw [if_pos hempty] at h
      injection h with h'
      injection h' with h1 h2
      exact absurd h2.symm (by simp)
    · rw [if_neg hempty] at h
      rcases hl : launchLoop P to_run.length to_run running evs with ⟨to_run2, running2, evs2⟩
      rw [hl] at h
      dsimp only at h
      rcases hp : pollPhase env output running2 with ⟨still, comp, pevs⟩
      rw [hp] at h
      dsimp only at h
      rcases hc : processCompleted env R output comp to_run2 (evs2 ++ pevs)
        with ⟨to_run3, evs3, err⟩
      rw [hc] at h
      dsimp only at h
      cases err with
      | some e2 =>
        injection h with h'
        injection h' with h1 h2
        injection h2 with h3
        subst h1
        subst h3
        exact processCompleted_some env R output comp to_run2 _ _ _ _
          (pollPhase_stdout env output running2 still comp pevs hp) hc
      | none =>
        exact ih _ _ _ _ _ h

lemma check_types_map_ok (name : String) (t : PyType) :
    ∀ elems : List PyObj, elems.all (fun cs => cs.isinstance t) = true →
    check_types (elems.map fun cs => (name, cs, t)) = .ok () := by
  intro elems
  induction elems with
  | nil =>
    intro _
    rfl
  | cons c rest ih =>
    intro h
    rw [List.all_cons, Bool.and_eq_true] at h
    simp only [List.map_cons, check_types, h.1, if_true]
    exact ih h.2

lemma check_types_map_err (name : String) (t : PyType) :
    ∀ elems : List PyObj, elems.all (fun cs => cs.isinstance t) = false →
    ∃ msg, check_types (elems.map fun cs => (name, cs, t))
      = .error (.validation msg) := by
  intro elems
  induction elems with
  | nil =>
    intro h
    simp at h
  | cons c rest ih =>
    intro h
    rw [List.all_cons, Bool.and_eq_false_iff] at h
    by_cases hc : c.isinstance t = true
    · rcases h with h | h
      · exact absurd hc (by simp [h])
      · obtain ⟨msg, hmsg⟩ := ih h
        exact ⟨msg, by simp only [List.map_cons, check_types, hc, if_true, hmsg]⟩
    · refine ⟨name ++ " has the wrong type", ?_⟩
      simp only [List.map_cons, check_types, hc, if_false]
      rw [if_neg (by simpa using hc)]

lemma add_command_ok (p : SubprocessPool) (cmd : PyObj)
    (h : valid_cmd cmd = true) :
    p.add_command cmd = .ok ⟨p.cmd_list ++ [cmd]⟩ := by
  rw [valid_cmd, Bool.and_eq_true, Bool.and_eq_true] at h
  obtain ⟨⟨hlist, hall⟩, hlen⟩ := h
  rw [SubprocessPool.add_command]
  show (check_types [("cmd", cmd, PyType.tlist)] >>= fun _ => _) = _
  rw [show check_types [("cmd", cmd, PyType.tlist)] = .ok () by
    simp [check_types, hlist]]
  show (check_types (cmd.listElems.map fun cs => ("cmd str", cs, PyType.tstr))
      >>= fun _ => _) = _
  rw [check_types_map_ok _ _ _ hall]
  show (if cmd.listElems.length > 0 then _ else _) = _
  rw [if_pos (by simpa using hlen)]

lemma add_command_err (p : SubprocessPool) (cmd : PyObj)
    (h : valid_cmd cmd = false) :
    ∃ msg, p.add_command cmd = .error (.validation msg) := by
  rw [valid_cmd, Bool.and_eq_false_iff, Bool.and_eq_false_iff] at h
  by_cases hlist : cmd.isinstance .tlist = true
  · by_cases hall : cmd.listElems.all (fun cs => cs.isinstance .tstr) = true
    · have hlen : ¬ cmd.listElems.length > 0 := by
        rcases h with (h | h) | h
        · exact absurd hlist (by simp [h])
        · exact absurd hall (by simp [h])
        · simpa using (by simpa using h : decide (cmd.listElems.length > 0) = false)
      refine ⟨"cmd must not be empty", ?_⟩
      rw [SubprocessPool.add_command]
      show (check_types [("cmd", cmd, PyType.tlist)] >>= fun _ => _) = _
      rw [show check_types [("cmd", cmd, PyType.tlist)] = .ok () by
        simp [check_types, hlist]]
      show (check_types (cmd.listElems.map fun cs => ("cmd str", cs, PyType.tstr))
          >>= fun _ => _) = _
      rw [check_types_map_ok _ _ _ hall]
      show (if cmd.listElems.length > 0 then _ else _) = _
      rw [if_neg hlen]
    · obtain ⟨msg, hmsg⟩ := check_types_map_err "cmd str" .tstr _ (by simpa using hall)
      refine ⟨msg, ?_⟩
      rw [SubprocessPool.add_command]
      show (check_types [("cmd", cmd, PyType.tlist)] >>= fun _ => _) = _
      rw [show check_types [("cmd", cmd, PyType.tlist)] = .ok () by
        simp [check_types, hlist]]
      show (check_types (cmd.listElems.map fun cs => ("cmd str", cs, PyType.tstr))
          >>= fun _ => _) = _
      rw [hmsg]
      rfl
  · refine ⟨"cmd has the wrong type", ?_⟩
    rw [SubprocessPool.add_command]
    show (check_types [("cmd", cmd, PyType.tlist)] >>= fun _ => _) = _
    rw [show check_types [("cmd", cmd, PyType.tlist)]
        = .error (.validation ("cmd" ++ " has the wrong type")) by
      simp only [check_types]
      rw [if_neg (by simpa using hlist)]]
    rfl

/-- C9: an empty command list or a command with a non-string element is
rejected with a validation error at `add_command` time; a non-callable
first argument or a non-tuple second argument is rejected at `FunctionCall`
construction time; and `run` never raises a validation error except for its
own parameter bounds — items already accepted never trigger one. -/
theorem C9_theorem :
    (∀ (p : SubprocessPool) (elems : List PyObj),
      elems = [] ∨ (∃ x ∈ elems, x.isinstance .tstr = false) →
      ∃ msg, p.add_command (.pylist elems) = .error (.validation msg))
    ∧ (∀ func arg_tuple, func.isCallable = false →
      ∃ msg, FunctionCall.init func arg_tuple = .error (.validation msg))
    ∧ (∀ func arg_tuple, arg_tuple.isinstance .ttuple = false →
      ∃ msg, FunctionCall.init func arg_tuple = .error (.validation msg))
    ∧ (∀ (sp : SubprocessPool) (processes : Int) (shell output : Bool) (retries : Int)
        (env : SPEnv) (fuel : Nat) (res : SPRunResult),
      sp.run_processes processes shell output retries env fuel = some res →
      (∀ msg, res.error = some (.validation msg) →
        ¬ (0 < processes ∧ processes < 37) ∨ ¬ (0 ≤ retries ∧ retries ≤ 30)))
    ∧ (∀ (mp : MultiprocessingPool) (processes : Int),
      0 < processes → processes < 37 →
      ∀ msg, (mp.run_processes processes).error ≠ some (.validation msg)) := by
  refine ⟨?_, ?_, ?_, ?_, ?_⟩
  · intro p elems hbad
    apply add_command_err
    rcases hbad with rfl | ⟨x, hx, hxs⟩
    · simp [valid_cmd, PyObj.isinstance, PyObj.listElems]
    · have hall : (PyObj.pylist elems).listElems.all (fun cs => cs.isinstance .tstr)
          = false := by
        rw [show (PyObj.pylist elems).listElems = elems from rfl, List.all_eq_false]
        exact ⟨x, hx, by simp [hxs]⟩
      simp [valid_cmd, hall]
  · intro func arg_tuple h
    refine ⟨"func must be a callable function", ?_⟩
    rw [FunctionCall.init, if_pos (by simp [h])]
  · intro func arg_tuple h
    by_cases hc : func.isCallable = true
    · refine ⟨"arg tuple must be a tuple", ?_⟩
      rw [FunctionCall.init, if_neg (by simp [hc]), if_pos (by simp [h])]
    · refine ⟨"func must be a callable function", ?_⟩
      rw [FunctionCall.init, if_pos (by simp [Bool.not_eq_true _ ▸ hc])]
  · intro sp processes shell output retries env fuel res hrun msg hmsg
    by_cases hA : 0 < processes ∧ processes < 37
    · by_cases hB : 0 ≤ retries ∧ retries ≤ 30
      · exfalso
        rw [SubprocessPool.run_processes, if_neg (not_not_intro hA),
          if_neg (not_not_intro hB)] at hrun
        split at hrun
        · exact absurd hrun (by simp)
        · rename_i evs err heq
          cases hrun
          have herr : err = some (PyError.validation msg) := hmsg
          rw [herr] at heq
          obtain ⟨⟨m, hm⟩, _⟩ := runLoop_some_error env processes.toNat retries.toNat
            output fuel _ [] [] evs _ heq
          simp at hm
      · exact Or.inr hB
    · exact Or.inl hA
  · intro mp processes h1 h2 msg
    rw [MultiprocessingPool.run_processes, if_neg (not_not_intro ⟨h1, h2⟩)]
    cases hflag : (log_check_loop
        (mp.function_call_list.map call_func_and_return_log_and_error_caught)).2 with
    | false => simp [hflag]
    | true => simp [hflag]

/-- C9 witness: concrete rejections — the empty command, a command with an
integer element, a non-callable call target, a non-tuple argument pack —
and a completed `run` on each executor whose error is not a validation
error. -/
theorem C9_witness :
    (∃ msg, SubprocessPool.add_command ⟨[]⟩ (.pylist []) = .error (.validation msg))
    ∧ (∃ msg, SubprocessPool.add_command ⟨[]⟩ (.pylist [PyObj.pystr "ls", PyObj.pyint 3])
        = .error (.validation msg))
    ∧ (∃ msg, FunctionCall.init (PyObj.pyint 7) (PyObj.pytuple [])
        = .error (.validation msg))
    ∧ (∃ msg, FunctionCall.init (PyObj.pycallable "" none) (PyObj.pylist [])
        = .error (.validation msg))
    ∧ (∀ msg, ((MultiprocessingPool.mk [fcErr]).run_processes 1).error
        ≠ some (.validation msg)) := by
  refine ⟨?_, ?_, ?_, ?_, ?_⟩
  · exact C9_theorem.1 ⟨[]⟩ [] (Or.inl rfl)
  · exact C9_theorem.1 ⟨[]⟩ [PyObj.pystr "ls", PyObj.pyint 3]
      (Or.inr ⟨PyObj.pyint 3, by simp, rfl⟩)
  · exact C9_theorem.2.1 (PyObj.pyint 7) (PyObj.pytuple []) rfl
  · exact C9_theorem.2.2.1 (PyObj.pycallable "" none) (PyObj.pylist []) rfl
  · exact C9_theorem.2.2.2.2 ⟨[fcErr]⟩ 1 (by decide) (by decide)

/-- C10: the batch add of the command scheduler is not atomic — when the
first failing candidate is preceded by valid commands, the call raises, but
those valid commands have already been appended and remain in the queue. -/
theorem C10_theorem (p : SubprocessPool) (pre : List PyObj) (bad : PyObj)
    (rest : List PyObj) (hpre : ∀ c ∈ pre, valid_cmd c = true)
    (hbad : valid_cmd bad = false) :
    ∃ msg, p.add_list_of_commands (.pylist (pre ++ bad :: rest))
      = (⟨p.cmd_list ++ pre⟩, some (.validation msg)) := by
  rw [SubprocessPool.add_list_of_commands]
  rw [show check_types [("cmd_list", PyObj.pylist (pre ++ bad :: rest), PyType.tlist)]
      = .ok () by simp [check_types, PyObj.isinstance]]
  show ∃ msg, SubprocessPool.add_list_go p (PyObj.pylist (pre ++ bad :: rest)).listElems = _
  rw [show (PyObj.pylist (pre ++ bad :: rest)).listElems = pre ++ bad :: rest from rfl]
  induction pre generalizing p with
  | nil =>
    obtain ⟨msg, hmsg⟩ := add_command_err p bad hbad
    refine ⟨msg, ?_⟩
    simp only [List.nil_append, SubprocessPool.add_list_go, hmsg]
    rw [List.append_nil]
  | cons c pre ih =>
    have hc := hpre c (List.mem_cons_self _ _)
    obtain ⟨msg, hmsg⟩ := ih ⟨p.cmd_list ++ [c]⟩
      (fun d hd => hpre d (List.mem_cons_of_mem _ hd))
    refine ⟨msg, ?_⟩
    rw [List.cons_append]
    simp only [SubprocessPool.add_list_go, add_command_ok p c hc]
    rw [hmsg]
    simp

/-- C10 witness: adding the batch [valid, empty, valid] raises, yet the
leading valid command is retained in the queue. -/
theorem C10_witness :
    ∃ msg, SubprocessPool.add_list_of_commands ⟨[]⟩
        (.pylist [PyObj.pylist [PyObj.pystr "a"], PyObj.pylist [],
                  PyObj.pylist [PyObj.pystr "b"]])
      = (⟨[PyObj.pylist [PyObj.pystr "a"]]⟩, some (.validation msg)) := by
  have h := C10_theorem ⟨[]⟩ [PyObj.pylist [PyObj.pystr "a"]] (PyObj.pylist [])
    [PyObj.pylist [PyObj.pystr "b"]] (by decide) (by decide)
  simpa using h

lemma launchLoop_single (c : PyObj) (a : Nat) (sb : Option String)
    (evs : List SPEvent) :
    launchLoop 1 1 [⟨0, c, a, none, sb⟩] [] evs
      = ([], [⟨0, c, a, some 0, sb⟩], evs ++ [SPEvent.launch 0 a]) := rfl

lemma pollPhase_single (env : SPEnv) (c : PyObj) (a : Nat) (sb : Option String)
    (hd : (env 0 a).duration = 0) :
    pollPhase env true [⟨0, c, a, some 0, sb⟩]
      = ([], [⟨0, c, a, some 0, some (env 0 a).out⟩], [SPEvent.poll 0]) := by
  simp [pollPhase, hd]

lemma processCompleted_single_retry (env : SPEnv) (R : Nat) (c : PyObj) (a : Nat)
    (sb : Option String) (to_run : List CMDTracker) (evs : List SPEvent)
    (hx : (env 0 a).exitcode ≠ 0) (ha : a ≠ R) :
    processCompleted env R true [⟨0, c, a, some 0, sb⟩] to_run evs
      = (to_run ++ [⟨0, c, a + 1, none, sb⟩], evs, none) := by
  simp [processCompleted, hx, ha]

lemma processCompleted_single_fatal (env : SPEnv) (R : Nat) (c : PyObj) (a : Nat)
    (s : String) (to_run : List CMDTracker) (evs : List SPEvent)
    (hx : (env 0 a).exitcode ≠ 0) (ha : a = R) :
    processCompleted env R true [⟨0, c, a, some 0, some s⟩] to_run evs
      = (to_run,
         evs ++ [SPEvent.logLine (" - subprocess exited with errors - "
           ++ ("\n" ++ pystrip s)), SPEvent.fatal 0],
         some (.runtime ("subprocess exited with a non-zero return code and retries limit reached, "
           ++ toString (env 0 a).exitcode))) := by
  subst ha
  simp [processCompleted, get_std_out_from_tracker, hx]

lemma processCompleted_single_success (env : SPEnv) (R : Nat) (c : PyObj) (a : Nat)
    (s : String) (to_run : List CMDTracker) (evs : List SPEvent)
    (hx : (env 0 a).exitcode = 0) :
    processCompleted env R true [⟨0, c, a, some 0, some s⟩] to_run evs
      = (to_run,
         evs ++ [SPEvent.logLine (" - subprocess completed - " ++ ("\n" ++ pystrip s))],
         none) := by
  simp [processCompleted, get_std_out_from_tracker, hx]

lemma runLoop_empty (env : SPEnv) (P R : Nat) (output : Bool) (fuel : Nat)
    (evs : List SPEvent) :
    runLoop env P R output (fuel + 1) [] [] evs = some (evs, none) := by
  simp [runLoop]

lemma runLoop_single_step_retry (env : SPEnv) (R fuel : Nat) (c : PyObj) (a : Nat)
    (sb : Option String) (evs : List SPEvent) (hd : (env 0 a).duration = 0)
    (hx : (env 0 a).exitcode ≠ 0) (ha : a ≠ R) :
    runLoop env 1 R true (fuel + 1) [⟨0, c, a, none, sb⟩] [] evs
      = runLoop env 1 R true fuel [⟨0, c, a + 1, none, some (env 0 a).out⟩] []
          ((evs ++ [SPEvent.launch 0 a]) ++ [SPEvent.poll 0]) := by
  simp only [runLoop]
  rw [if_neg (by simp)]
  rw [show ([⟨0, c, a, none, sb⟩] : List CMDTracker).length = 1 from rfl, launchLoop_single]
  dsimp only
  rw [pollPhase_single env c a sb hd]
  dsimp only
  rw [processCompleted_single_retry env R c a (some (env 0 a).out) []
    ((evs ++ [SPEvent.launch 0 a]) ++ [SPEvent.poll 0]) hx ha]
  dsimp only
  rw [List.nil_append]

lemma runLoop_single_step_fatal (env : SPEnv) (R fuel : Nat) (c : PyObj) (a : Nat)
    (sb : Option String) (evs : List SPEvent) (hd : (env 0 a).duration = 0)
    (hx : (env 0 a).exitcode ≠ 0) (ha : a = R) :
    runLoop env 1 R true (fuel + 1) [⟨0, c, a, none, sb⟩] [] evs
      = some (((evs ++ [SPEvent.launch 0 a]) ++ [SPEvent.poll 0])
            ++ [SPEvent.logLine (" - subprocess exited with errors - "
                 ++ ("\n" ++ pystrip (env 0 a).out)), SPEvent.fatal 0],
          some (.runtime ("subprocess exited with a non-zero return code and retries limit reached, "
            ++ toString (env 0 a).exitcode))) := by
  simp only [runLoop]
  rw [if_neg (by simp)]
  rw [show ([⟨0, c, a, none, sb⟩] : List CMDTracker).length = 1 from rfl, launchLoop_single]
  dsimp only
  rw [pollPhase_single env c a sb hd]
  dsimp only
  rw [processCompleted_single_fatal env R c a ((env 0 a).out) []
    ((evs ++ [SPEvent.launch 0 a]) ++ [SPEvent.poll 0]) hx ha]

lemma runLoop_single_step_success (env : SPEnv) (R fuel : Nat) (c : PyObj) (a : Nat)
    (sb : Option String) (evs : List SPEvent) (hd : (env 0 a).duration = 0)
    (hx : (env 0 a).exitcode = 0) :
    runLoop env 1 R true (fuel + 1) [⟨0, c, a, none, sb⟩] [] evs
      = runLoop env 1 R true fuel [] []
          (((evs ++ [SPEvent.launch 0 a]) ++ [SPEvent.poll 0])
            ++ [SPEvent.logLine (" - subprocess completed - "
                 ++ ("\n" ++ pystrip (env 0 a).out))]) := by
  simp only [runLoop]
  rw [if_neg (by simp)]
  rw [show ([⟨0, c, a, none, sb⟩] : List CMDTracker).length = 1 from rfl, launchLoop_single]
  dsimp only
  rw [pollPhase_single env c a sb hd]
  dsimp only
  rw [processCompleted_single_success env R c a ((env 0 a).out) []
    ((evs ++ [SPEvent.launch 0 a]) ++ [SPEvent.poll 0]) hx]

lemma runLoop_seq_succeed (R : Nat) :
    ∀ (d a : Nat), a + d = R →
    ∀ (c : PyObj) (sb : Option String) (evs : List SPEvent),
    ∃ extra, runLoop (env_succeed_after R) 1 R true (d + 2)
        [⟨0, c, a, none, sb⟩] [] evs = some (evs ++ extra, none)
      ∧ countLaunches extra = d + 1 := by
  intro d
  induction d with
  | zero =>
    intro a ha c sb evs
    have haR : a = R := by omega
    subst haR
    have hx : (env_succeed_after a 0 a).exitcode = 0 := by simp [env_succeed_after]
    have hd0 : (env_succeed_after a 0 a).duration = 0 := rfl
    refine ⟨[SPEvent.launch 0 a, SPEvent.poll 0,
      SPEvent.logLine (" - subprocess completed - "
        ++ ("\n" ++ pystrip (env_succeed_after a 0 a).out))], ?_, rfl⟩
    rw [show (0 : Nat) + 2 = 1 + 1 from rfl,
      runLoop_single_step_success (env_succeed_after a) a 1 c a sb evs hd0 hx,
      runLoop_empty]
    simp
  | succ d ih =>
    intro a ha c sb evs
    have haR : a < R := by omega
    have hx : (env_succeed_after R 0 a).exitcode ≠ 0 := by
      simp [env_succeed_after, haR]
    have hane : a ≠ R := by omega
    have hd0 : (env_succeed_after R 0 a).duration = 0 := rfl
    obtain ⟨extra, heq, hcount⟩ := ih (a + 1) (by omega) c
      (some (env_succeed_after R 0 a).out)
      ((evs ++ [SPEvent.launch 0 a]) ++ [SPEvent.poll 0])
    refine ⟨[SPEvent.launch 0 a, SPEvent.poll 0] ++ extra, ?_, ?_⟩
    · rw [show d + 1 + 2 = (d + 2) + 1 from rfl,
        runLoop_single_step_retry (env_succeed_after R) R (d + 2) c a sb evs hd0 hx hane,
        heq]
      simp
    · have h2 : countLaunches ([SPEvent.launch 0 a, SPEvent.poll 0] ++ extra)
          = 1 + countLaunches extra := by
        simp [countLaunches, List.filter_append, SPEvent.is_launch]
        omega
      rw [h2, hcount]
      omega

lemma runLoop_seq_fail (R : Nat) :
    ∀ (d a : Nat), a + d = R →
    ∀ (c : PyObj) (sb : Option String) (evs : List SPEvent),
    ∃ extra e, runLoop env_always_fail 1 R true (d + 2)
        [⟨0, c, a, none, sb⟩] [] evs = some (evs ++ extra, some e)
      ∧ countLaunches extra = d + 1 := by
  intro d
  induction d with
  | zero =>
    intro a ha c sb evs
    have haR : a = R := by omega
    subst haR
    have hx : (env_always_fail 0 a).exitcode ≠ 0 := by simp [env_always_fail]
    have hd0 : (env_always_fail 0 a).duration = 0 := rfl
    refine ⟨[SPEvent.launch 0 a, SPEvent.poll 0,
      SPEvent.logLine (" - subprocess exited with errors - "
        ++ ("\n" ++ pystrip (env_always_fail 0 a).out)), SPEvent.fatal 0],
      .runtime ("subprocess exited with a non-zero return code and retries limit reached, "
        ++ toString (env_always_fail 0 a).exitcode), ?_, rfl⟩
    rw [show (0 : Nat) + 2 = 1 + 1 from rfl,
      runLoop_single_step_fatal env_always_fail a 1 c a sb evs hd0 hx rfl]
    simp
  | succ d ih =>
    intro a ha c sb evs
    have hx : (env_always_fail 0 a).exitcode ≠ 0 := by simp [env_always_fail]
    have hane : a ≠ R := by omega
    have hd0 : (env_always_fail 0 a).duration = 0 := rfl
    obtain ⟨extra, e, heq, hcount⟩ := ih (a + 1) (by omega) c
      (some (env_always_fail 0 a).out)
      ((evs ++ [SPEvent.launch 0 a]) ++ [SPEvent.poll 0])
    refine ⟨[SPEvent.launch 0 a, SPEvent.poll 0] ++ extra, e, ?_, ?_⟩
    · rw [show d + 1 + 2 = (d + 2) + 1 from rfl,
        runLoop_single_step_retry env_always_fail R (d + 2) c a sb evs hd0 hx hane,
        heq]
      simp
    · have h2 : countLaunches ([SPEvent.launch 0 a, SPEvent.poll 0] ++ extra)
          = 1 + countLaunches extra := by
        simp [countLaunches, List.filter_append, SPEvent.is_launch]
        omega
      rw [h2, hcount]
      omega

/-- C4: with retry budget R, a command whose first R attempts exit non-zero
and whose final attempt exits zero yields batch success with no raised
error after exactly R + 1 launches (R relaunches); a command that also
fails with its counter at R is fatal, again after exactly R + 1 launches
(no further relaunch). -/
theorem C4_theorem (R : Nat) (hR : R ≤ 30) :
    (∃ res, SubprocessPool.run_processes ⟨[cmdA]⟩ 1 false true (R : Int)
        (env_succeed_after R) (R + 2) = some res
      ∧ res.error = none ∧ countLaunches res.trace = R + 1)
    ∧ (∃ res e, SubprocessPool.run_processes ⟨[cmdA]⟩ 1 false true (R : Int)
        env_always_fail (R + 2) = some res
      ∧ res.error = some e ∧ countLaunches res.trace = R + 1) := by
  have hv1 : ¬¬((0 : Int) < 1 ∧ (1 : Int) < 37) :=
    not_not_intro (by constructor <;> norm_num)
  have hv2 : ¬¬((0 : Int) ≤ (R : Int) ∧ (R : Int) ≤ 30) :=
    not_not_intro ⟨Int.natCast_nonneg R, by exact_mod_cast hR⟩
  constructor
  · obtain ⟨extra, heq, hcount⟩ := runLoop_seq_succeed R R 0 (by omega) cmdA none []
    refine ⟨⟨⟨[]⟩, [] ++ extra, none⟩, ?_, rfl, ?_⟩
    · rw [SubprocessPool.run_processes, if_neg hv1, if_neg hv2]
      rw [show ((1 : Int)).toNat = 1 from rfl]
      rw [show ((R : Int)).toNat = R from Int.toNat_natCast R]
      rw [show ((⟨[cmdA]⟩ : SubprocessPool).cmd_list.enum.map fun ic =>
        CMDTracker.mk ic.1 ic.2 0 none none) = [⟨0, cmdA, 0, none, none⟩] from rfl]
      rw [heq]
    · simpa using hcount
  · obtain ⟨extra, e, heq, hcount⟩ := runLoop_seq_fail R R 0 (by omega) cmdA none []
    refine ⟨⟨⟨[]⟩, [] ++ extra, some e⟩, e, ?_, rfl, ?_⟩
    · rw [SubprocessPool.run_processes, if_neg hv1, if_neg hv2]
      rw [show ((1 : Int)).toNat = 1 from rfl]
      rw [show ((R : Int)).toNat = R from Int.toNat_natCast R]
      rw [show ((⟨[cmdA]⟩ : SubprocessPool).cmd_list.enum.map fun ic =>
        CMDTracker.mk ic.1 ic.2 0 none none) = [⟨0, cmdA, 0, none, none⟩] from rfl]
      rw [heq]
    · simpa using hcount

/-- C4 witness: budget 2 — two failures then success succeeds with three
launches; three failures are fatal with three launches. -/
theorem C4_witness :
    (∃ res, SubprocessPool.run_processes ⟨[cmdA]⟩ 1 false true ((2 : Nat) : Int)
        (env_succeed_after 2) (2 + 2) = some res
      ∧ res.error = none ∧ countLaunches res.trace = 2 + 1)
    ∧ (∃ res e, SubprocessPool.run_processes ⟨[cmdA]⟩ 1 false true ((2 : Nat) : Int)
        env_always_fail (2 + 2) = some res
      ∧ res.error = some e ∧ countLaunches res.trace = 2 + 1) :=
  C4_theorem 2 (by decide)

/-- C5: whenever a `run` of the command scheduler raises (which happens
exactly when a completed command exits non-zero with its retry counter at
the budget), the fatal event is the last event of the trace: no poll of any
other still-executing item and no launch of a queued-but-not-started
command occurs after the failure is detected. -/
theorem C5_theorem (p : SubprocessPool) (processes : Int) (shell output : Bool)
    (retries : Int) (env : SPEnv) (fuel : Nat) (res : SPRunResult)
    (h1 : 0 < processes) (h2 : processes < 37) (h3 : 0 ≤ retries) (h4 : retries ≤ 30)
    (hrun : p.run_processes processes shell output retries env fuel = some res)
    (herr : res.error.isSome = true) :
    ∃ pre i, res.trace = pre ++ [SPEvent.fatal i] := by
  rw [SubprocessPool.run_processes, if_neg (not_not_intro ⟨h1, h2⟩),
    if_neg (not_not_intro ⟨h3, h4⟩)] at hrun
  split at hrun
  · exact absurd hrun (by simp)
  · rename_i evs err heq
    cases hrun
    obtain ⟨e, he⟩ := Option.isSome_iff_exists.mp herr
    have he2 : err = some e := he
    rw [he2] at heq
    obtain ⟨_, pre, i, htr⟩ := runLoop_some_error env processes.toNat retries.toNat
      output fuel _ [] [] evs e heq
    exact ⟨pre, i, htr⟩

/-- C5 witness: two commands with budget 0; the second-launched one fails
at once while the other is still running — the run raises and the trace
ends at the fatal event, with no later poll or launch. -/
theorem C5_witness :
    ∃ res, SubprocessPool.run_processes sp5 2 false true 0 env5 3 = some res
      ∧ res.error.isSome = true
      ∧ ∃ pre i, res.trace = pre ++ [SPEvent.fatal i] := by
  refine ⟨_, rfl, rfl, ?_⟩
  exact C5_theorem sp5 2 false true 0 env5 3 _
    (by decide) (by decide) (by decide) (by decide) rfl rfl
